import Mathlib

/-!
Verification development for the resume-ranker frontend.

The definitions below are a shallow embedding of the client-side logic of
the repository: the `ResumeRankingClient` HTTP wrapper and its polling
helper (`src/frontend/src/api/resumeService.js`), the upload form's file
validation and submit handler (the `UploadForm` component), and the results
page's sorting and aggregate statistics
(`src/frontend/src/pages/ResultsPage.jsx`).

JavaScript idioms are modelled explicitly: the `x || fallback` idiom on
strings treats the empty string as falsy; `Math.round` is floor of
`x + 1/2`; division by zero yields `NaN`/`Infinity`, captured by the
`JSNum` type. Network interaction is modelled by passing the sequence of
server replies as an explicit argument.
-/

namespace ResumeRanker

/-- Result of the JavaScript string idiom `v || fallback`: `v` when it is a
non-empty string, `fallback` when `v` is `undefined`/`null` or the empty
string (which is falsy in JavaScript). -/
def jsOrString (v : Option String) (fallback : String) : String :=
  match v with
  | some s => if s = "" then fallback else s
  | none => fallback

/-- Model of JavaScript's `String.prototype.trim`: strip leading and
trailing whitespace. Defined over the character list so that it evaluates
by kernel reduction. -/
def jsTrim (s : String) : String :=
  String.mk (((s.data.dropWhile Char.isWhitespace).reverse.dropWhile Char.isWhitespace).reverse)

/-! ### Job status polling (`pollJobStatus`, resumeService.js lines 113-138) -/

/-- A job-status object returned by the backend: the `status` field and the
optional `message` field used on failure. -/
structure JobStatus where
  status : String
  message : Option String
  deriving DecidableEq, Repr

/-- One reply to a single `getJobStatus` poll attempt: either a parsed
status object, or the error thrown by the attempt (HTTP non-success or
network failure). -/
inductive PollReply where
  | ok (st : JobStatus)
  | err (e : String)
  deriving DecidableEq, Repr

/-- Outcome of the promise returned by `pollJobStatus`. `stillPolling`
models the loop having consumed every scripted reply without reaching a
terminal state (the real loop would schedule another timer). -/
inductive PollOutcome where
  | resolved (st : JobStatus)
  | rejectedJobFailed (msg : String)
  | rejectedTransport (e : String)
  | stillPolling
  deriving DecidableEq, Repr

/-- Shallow embedding of `pollJobStatus` (resumeService.js lines 113-138)
over an explicit finite script of poll replies. Returns the promise's
outcome together with the list of status objects passed to the
`onProgress` callback, in call order. Each successful attempt first
invokes `onProgress(status)`, then resolves on `"completed"`, rejects with
`new Error(status.message || "Job failed")` on `"failed"`, and otherwise
schedules the next attempt; a thrown error rejects immediately, with
`onProgress` not invoked for that attempt and no further attempt made. -/
def pollJobStatus : List PollReply → PollOutcome × List JobStatus
  | [] => (PollOutcome.stillPolling, [])
  | PollReply.err e :: _ => (PollOutcome.rejectedTransport e, [])
  | PollReply.ok st :: rest =>
    if st.status = "completed" then
      (PollOutcome.resolved st, [st])
    else if st.status = "failed" then
      (PollOutcome.rejectedJobFailed (jsOrString st.message "Job failed"), [st])
    else
      let r := pollJobStatus rest
      (r.1, st :: r.2)

/-- A status object that keeps the polling loop running: neither
`"completed"` nor `"failed"`. -/
def nonTerminal (st : JobStatus) : Prop :=
  st.status ≠ "completed" ∧ st.status ≠ "failed"

instance (st : JobStatus) : Decidable (nonTerminal st) := by
  unfold nonTerminal; infer_instance

/-- Statuses carried by the successful replies of a script. -/
def replyStatuses (script : List PollReply) : List JobStatus :=
  script.filterMap fun r =>
    match r with
    | PollReply.ok st => some st
    | PollReply.err _ => none

lemma pollJobStatus_append_nonTerminal (prefi : List PollReply) (rest : List PollReply)
    (h : ∀ st, PollReply.ok st ∈ prefi → nonTerminal st)
    (hok : ∀ r ∈ prefi, ∃ st, r = PollReply.ok st) :
    pollJobStatus (prefi ++ rest) =
      ((pollJobStatus rest).1, replyStatuses prefi ++ (pollJobStatus rest).2) := by
  induction prefi with
  | nil => simp [replyStatuses]
  | cons r tl ih =>
    obtain ⟨st, rfl⟩ := hok r (List.mem_cons_self r tl)
    have hnt : nonTerminal st := h st (List.mem_cons_self _ tl)
    have h1 : st.status ≠ "completed" := hnt.1
    have h2 : st.status ≠ "failed" := hnt.2
    have ihtl := ih (fun s hs => h s (List.mem_cons_of_mem _ hs))
      (fun r hr => hok r (List.mem_cons_of_mem _ hr))
    simp only [List.cons_append, pollJobStatus, if_neg h1, if_neg h2, List.append_eq, ihtl,
      replyStatuses, List.filterMap_cons]

/-! ### Ranking Client operations (resumeService.js lines 12-104) -/

/-- An HTTP response as the client observes it: the `ok` flag, the parsed
body on success, and the `detail` field of the parsed error body (absent
when the error body carries no such field). -/
structure HttpResponse (α : Type) where
  ok : Bool
  detail : Option String
  body : α
  deriving DecidableEq, Repr

/-- Shallow embedding of `uploadResumes` (lines 12-39): on a non-success
response the operation throws `new Error(error.detail || "Upload failed")`,
otherwise it returns the parsed body. -/
def uploadResumes {α : Type} (resp : HttpResponse α) : Except String α :=
  if resp.ok then Except.ok resp.body
  else Except.error (jsOrString resp.detail "Upload failed")

/-- Shallow embedding of `getJobStatus` (lines 46-60), fallback message
`"Failed to get job status"`. -/
def getJobStatus {α : Type} (resp : HttpResponse α) : Except String α :=
  if resp.ok then Except.ok resp.body
  else Except.error (jsOrString resp.detail "Failed to get job status")

/-- Shallow embedding of `getJobResults` (lines 67-81), fallback message
`"Failed to get job results"`. -/
def getJobResults {α : Type} (resp : HttpResponse α) : Except String α :=
  if resp.ok then Except.ok resp.body
  else Except.error (jsOrString resp.detail "Failed to get job results")

/-- Shallow embedding of `cleanupJob` (lines 88-104), fallback message
`"Failed to cleanup job"`. -/
def cleanupJob {α : Type} (resp : HttpResponse α) : Except String α :=
  if resp.ok then Except.ok resp.body
  else Except.error (jsOrString resp.detail "Failed to cleanup job")

end ResumeRanker

namespace ResumeRanker

/-- C1: for a run of the polling loop that observes the status sequence
pending, processing, completed, the promise resolves (exactly once, the
promise machinery admitting at most one settlement and the loop stopping
at the first terminal status) with the final status object, whose status
is `"completed"`, and the progress callback is invoked exactly three
times, once per polled response and in arrival order, including on the
final completed response. -/
theorem pollStatus_pending_processing_completed
    (s1 s2 s3 : JobStatus)
    (h1 : s1.status = "pending") (h2 : s2.status = "processing")
    (h3 : s3.status = "completed") :
    pollJobStatus [PollReply.ok s1, PollReply.ok s2, PollReply.ok s3] =
      (PollOutcome.resolved s3, [s1, s2, s3]) := by
  simp [pollJobStatus, h1, h2, h3]

/-- Witness for C1 at a concrete script. -/
theorem pollStatus_pending_processing_completed_witness :
    pollJobStatus
        [PollReply.ok ⟨"pending", none⟩, PollReply.ok ⟨"processing", none⟩,
          PollReply.ok ⟨"completed", none⟩] =
      (PollOutcome.resolved ⟨"completed", none⟩,
        [⟨"pending", none⟩, ⟨"processing", none⟩, ⟨"completed", none⟩]) :=
  pollStatus_pending_processing_completed _ _ _ rfl rfl rfl

/-- C2: after any run of non-terminal polls, a reply with status
`"failed"` rejects the promise with the server-supplied failure message
when one is present and non-empty, and with the generic `"Job failed"`
message when it is absent (or empty, the empty string being falsy in
JavaScript); and an error thrown by any single poll attempt rejects the
whole operation immediately with that error: the failed attempt is not
retried and no further reply of the script is consumed. -/
theorem pollStatus_failed_and_transport
    (prefi rest : List PollReply) (sf : JobStatus) (e : String)
    (hnt : ∀ st, PollReply.ok st ∈ prefi → nonTerminal st)
    (hok : ∀ r ∈ prefi, ∃ st, r = PollReply.ok st)
    (hf : sf.status = "failed") :
    ((∀ m, sf.message = some m → m ≠ "" →
        pollJobStatus (prefi ++ [PollReply.ok sf]) =
          (PollOutcome.rejectedJobFailed m, replyStatuses prefi ++ [sf])) ∧
      ((sf.message = none ∨ sf.message = some "") →
        pollJobStatus (prefi ++ [PollReply.ok sf]) =
          (PollOutcome.rejectedJobFailed "Job failed", replyStatuses prefi ++ [sf]))) ∧
      pollJobStatus (prefi ++ PollReply.err e :: rest) =
        (PollOutcome.rejectedTransport e, replyStatuses prefi) := by
  have hnc : sf.status ≠ "completed" := by rw [hf]; decide
  refine ⟨⟨?_, ?_⟩, ?_⟩
  · intro m hm hme
    rw [pollJobStatus_append_nonTerminal prefi _ hnt hok]
    simp [pollJobStatus, hf, hnc, jsOrString, hm, hme]
  · intro hm
    rw [pollJobStatus_append_nonTerminal prefi _ hnt hok]
    rcases hm with hm | hm <;> simp [pollJobStatus, hf, hnc, jsOrString, hm]
  · rw [pollJobStatus_append_nonTerminal prefi _ hnt hok]
    simp [pollJobStatus]

/-- Witness for C2 at a concrete script: one pending poll followed by a
failure carrying the message `"quota exceeded"`, and the transport case
after the same pending poll. -/
theorem pollStatus_failed_and_transport_witness :
    pollJobStatus
        [PollReply.ok ⟨"pending", none⟩,
          PollReply.ok ⟨"failed", some "quota exceeded"⟩] =
      (PollOutcome.rejectedJobFailed "quota exceeded",
        [⟨"pending", none⟩, ⟨"failed", some "quota exceeded"⟩]) ∧
    pollJobStatus [PollReply.ok ⟨"pending", none⟩, PollReply.err "network down",
        PollReply.ok ⟨"completed", none⟩] =
      (PollOutcome.rejectedTransport "network down", [⟨"pending", none⟩]) := by
  have h := pollStatus_failed_and_transport [PollReply.ok ⟨"pending", none⟩]
    [PollReply.ok ⟨"completed", none⟩] ⟨"failed", some "quota exceeded"⟩ "network down"
    (by intro st hst; simp at hst; subst hst; decide)
    (by intro r hr; simp at hr; exact ⟨_, hr⟩) rfl
  exact ⟨h.1.1 "quota exceeded" rfl (by decide), h.2⟩

end ResumeRanker

namespace ResumeRanker

/-- C7: for every Ranking Client operation (upload, status, results,
cleanup), a non-success server response makes the operation fail with an
error whose message is the server-provided error body's `detail` field
when that field is present (and non-empty, the empty string being falsy
under the `||` idiom), and the operation's generic fallback message when
it is absent or empty. -/
theorem clientOps_error_message {α : Type} (resp : HttpResponse α)
    (hok : resp.ok = false) :
    (∀ m, resp.detail = some m → m ≠ "" →
      uploadResumes resp = Except.error m ∧
      getJobStatus resp = Except.error m ∧
      getJobResults resp = Except.error m ∧
      cleanupJob resp = Except.error m) ∧
    ((resp.detail = none ∨ resp.detail = some "") →
      uploadResumes resp = Except.error "Upload failed" ∧
      getJobStatus resp = Except.error "Failed to get job status" ∧
      getJobResults resp = Except.error "Failed to get job results" ∧
      cleanupJob resp = Except.error "Failed to cleanup job") := by
  constructor
  · intro m hm hme
    simp [uploadResumes, getJobStatus, getJobResults, cleanupJob, hok, jsOrString, hm, hme]
  · intro hm
    rcases hm with hm | hm <;>
      simp [uploadResumes, getJobStatus, getJobResults, cleanupJob, hok, jsOrString, hm]

/-- Witness for C7: a concrete non-success response with a `detail` field,
and one without any `detail` field. -/
theorem clientOps_error_message_witness :
    uploadResumes (HttpResponse.mk false (some "No text extracted") ()) =
      Except.error "No text extracted" ∧
    getJobStatus (HttpResponse.mk false none ()) =
      Except.error "Failed to get job status" :=
  ⟨((clientOps_error_message (HttpResponse.mk false (some "No text extracted") ()) rfl).1
      "No text extracted" rfl (by decide)).1,
    ((clientOps_error_message (HttpResponse.mk false none ()) rfl).2 (Or.inl rfl)).2.1⟩

end ResumeRanker

namespace ResumeRanker

/-! ### Upload form (`UploadForm` component: `handleFileValidation`,
`handleResumeUpload`, `handleDrop`, `validateForm`, `handleSubmit`) -/

/-- A selected file as the form sees it: its name and MIME type. -/
structure FileObj where
  name : String
  type : String
  deriving DecidableEq, Repr

/-- The component's `errors` object. A `none` field models both an absent
key and an explicit `null` value (both render no message). -/
structure FormErrors where
  resumes : Option String
  job_description : Option String
  submit : Option String
  deriving DecidableEq, Repr

/-- The component's state hooks: selected files, description text, error
object and the busy flag. -/
structure FormState where
  resumes : List FileObj
  job_description : String
  errors : FormErrors
  isUploading : Bool
  deriving DecidableEq, Repr

/-- The file-type check of the validation path:
`file.type === "application/pdf"`. -/
def isPdfType (f : FileObj) : Bool :=
  f.type == "application/pdf"

/-- Shallow embedding of `handleFileValidation` (part_000 lines 86-107):
filter the batch to PDFs; if any file was dropped by the filter, set the
type error and keep the previous selection; if more than 10 files, set
the count error and keep the previous selection; otherwise replace the
selection with the batch and clear the file error. `handleResumeUpload` in
part_001 lines 11-33 inlines this same logic. -/
def handleFileValidation (files : List FileObj) (st : FormState) : FormState :=
  let pdfFiles := files.filter isPdfType
  if pdfFiles.length ≠ files.length then
    { st with errors := { st.errors with resumes := some "Only PDF files are allowed for resumes" } }
  else if pdfFiles.length > 10 then
    { st with errors := { st.errors with resumes := some "Maximum 10 resumes allowed" } }
  else
    { st with resumes := pdfFiles,
              errors := { st.errors with resumes := none } }

/-- The file-picker change handler (part_000 lines 109-112): converts the
input's `FileList` to an array and delegates to `handleFileValidation`. -/
def handleResumeUpload (files : List FileObj) (st : FormState) : FormState :=
  handleFileValidation files st

/-- The drag-and-drop handler (part_000 lines 72-84): ignored while an
upload is in flight, otherwise the same validation path. -/
def handleDrop (files : List FileObj) (st : FormState) : FormState :=
  if st.isUploading then st else handleFileValidation files st

/-- Shallow embedding of `validateForm` (part_000 lines 125-138): builds a
fresh error object (zero selected files and empty post-trim description
are the only checks), replaces the component's errors with it, and passes
iff that object has no keys. -/
def validateForm (st : FormState) : FormState × Bool :=
  let resumesErr : Option String :=
    if st.resumes.length = 0 then some "Please upload at least one resume" else none
  let jdErr : Option String :=
    if jsTrim st.job_description = "" then some "Job description is required" else none
  ({ st with errors := { resumes := resumesErr, job_description := jdErr, submit := none } },
    resumesErr.isNone && jdErr.isNone)

/-- Shallow embedding of `handleSubmit` (part_000 lines 140-170) as one
big step, the callback's settled result passed as `cbSucceeds`. Returns
the state after the handler finishes together with the payload handed to
the `onSubmit` callback (`none` when validation failed and the callback
was never invoked). The transient `isUploading = true` window is not
observable in this big-step model; `finally` resets it. -/
def handleSubmit (st : FormState) (cbSucceeds : Bool) : FormState × Option (List FileObj × String) :=
  let v := validateForm st
  if v.2 = false then (v.1, none)
  else
    let payload := (v.1.resumes, v.1.job_description)
    if cbSucceeds then
      ({ v.1 with resumes := [], job_description := "",
                  errors := FormErrors.mk none none none, isUploading := false }, some payload)
    else
      ({ v.1 with errors := { v.1.errors with submit := some "Failed to upload. Please try again." },
                  isUploading := false }, some payload)

lemma filter_isPdfType_eq_self (files : List FileObj)
    (h : files.all isPdfType = true) : files.filter isPdfType = files :=
  List.filter_eq_self.mpr (by simpa [List.all_eq_true] using h)

lemma filter_isPdfType_length_ne (files : List FileObj)
    (h : ¬ files.all isPdfType = true) : (files.filter isPdfType).length ≠ files.length := by
  have hex : ∃ a ∈ files, ¬ isPdfType a = true := by
    simpa [List.all_eq_true] using h
  have hlt := (@List.length_filter_lt_length_iff_exists FileObj isPdfType files).mpr hex
  omega

end ResumeRanker

namespace ResumeRanker

/-- Counterexample for C3: a batch of 0 files does not fail batch
validation. Starting from a state with one selected PDF and a visible
file error, submitting the empty batch through the validation path is
accepted: it clears the file error and replaces the selection with the
empty list, instead of failing with the documented zero-file message. -/
theorem fileValidation_empty_batch_counterexample :
    handleFileValidation []
        (FormState.mk [FileObj.mk "cv.pdf" "application/pdf"] ""
          (FormErrors.mk (some "Only PDF files are allowed for resumes") none none) false) =
      FormState.mk [] "" (FormErrors.mk none none none) false := by
  decide

/-- C3 as amended: batch validation (shared by the picker and
drag-and-drop) passes iff every file of the batch has MIME type
`application/pdf` and the batch has at most 10 files — the empty batch
passes; a batch with a non-PDF file fails with the type message, a batch
of more than 10 PDFs fails with the count message, and a failing batch is
rejected wholly, no file of it being accepted; the zero-file case is
rejected only at submit time, by `validateForm`, with its documented
message. -/
theorem fileValidation_passes_iff (files : List FileObj) (st : FormState) :
    ((files.all isPdfType = true ∧ files.length ≤ 10) →
      handleFileValidation files st =
        { st with resumes := files,
                  errors := { st.errors with resumes := none } }) ∧
    (files.all isPdfType = false →
      handleFileValidation files st =
        { st with errors := { st.errors with resumes := some "Only PDF files are allowed for resumes" } }) ∧
    ((files.all isPdfType = true ∧ 10 < files.length) →
      handleFileValidation files st =
        { st with errors := { st.errors with resumes := some "Maximum 10 resumes allowed" } }) ∧
    (st.resumes = [] →
      (validateForm st).2 = false ∧
      (validateForm st).1.errors.resumes = some "Please upload at least one resume") := by
  refine ⟨?_, ?_, ?_, ?_⟩
  · rintro ⟨hall, hle⟩
    have hfil := filter_isPdfType_eq_self files hall
    simp [handleFileValidation, hfil, Nat.not_lt.mpr hle]
  · intro hall
    have hne := filter_isPdfType_length_ne files (by simp [hall])
    simp [handleFileValidation, hne]
  · rintro ⟨hall, hgt⟩
    have hfil := filter_isPdfType_eq_self files hall
    simp [handleFileValidation, hfil, hgt]
  · intro hres
    simp [validateForm, hres]

/-- Witness for C3 at concrete batches: a single PDF passes and replaces
the selection; a batch with a text file fails with the type message; a
batch of 11 PDFs fails with the count message; submit-time validation on
an empty selection fails with the zero-file message. -/
theorem fileValidation_passes_iff_witness :
    handleFileValidation [FileObj.mk "a.pdf" "application/pdf"]
        (FormState.mk [] "jd" (FormErrors.mk none none none) false) =
      FormState.mk [FileObj.mk "a.pdf" "application/pdf"] "jd"
        (FormErrors.mk none none none) false ∧
    handleFileValidation [FileObj.mk "a.txt" "text/plain"]
        (FormState.mk [] "jd" (FormErrors.mk none none none) false) =
      FormState.mk [] "jd"
        (FormErrors.mk (some "Only PDF files are allowed for resumes") none none) false ∧
    handleFileValidation (List.replicate 11 (FileObj.mk "a.pdf" "application/pdf"))
        (FormState.mk [] "jd" (FormErrors.mk none none none) false) =
      FormState.mk [] "jd"
        (FormErrors.mk (some "Maximum 10 resumes allowed") none none) false ∧
    ((validateForm (FormState.mk [] "jd" (FormErrors.mk none none none) false)).2 = false ∧
      (validateForm (FormState.mk [] "jd" (FormErrors.mk none none none) false)).1.errors.resumes =
        some "Please upload at least one resume") :=
  ⟨(fileValidation_passes_iff [FileObj.mk "a.pdf" "application/pdf"]
        (FormState.mk [] "jd" (FormErrors.mk none none none) false)).1 (by decide),
    (fileValidation_passes_iff [FileObj.mk "a.txt" "text/plain"]
        (FormState.mk [] "jd" (FormErrors.mk none none none) false)).2.1 (by decide),
    (fileValidation_passes_iff (List.replicate 11 (FileObj.mk "a.pdf" "application/pdf"))
        (FormState.mk [] "jd" (FormErrors.mk none none none) false)).2.2.1 (by decide),
    (fileValidation_passes_iff []
        (FormState.mk [] "jd" (FormErrors.mk none none none) false)).2.2.2 rfl⟩

end ResumeRanker

namespace ResumeRanker

/-- C10: file validation is a total replacement or a no-op on the
selection. A batch that passes (all PDF, at most 10) wholly replaces the
previous selection — the new selection is exactly the batch, never an
append — and clears the file error, touching nothing else; a batch that
fails leaves the previous selection (and every other field) completely
unchanged and only sets the file error message. The picker handler
delegates to this same validation. -/
theorem fileValidation_replace_or_noop (files : List FileObj) (st : FormState) :
    ((files.all isPdfType = true ∧ files.length ≤ 10) →
      (handleFileValidation files st).resumes = files ∧
      (handleFileValidation files st).errors.resumes = none ∧
      (handleFileValidation files st).job_description = st.job_description ∧
      (handleFileValidation files st).errors.job_description = st.errors.job_description ∧
      (handleFileValidation files st).errors.submit = st.errors.submit ∧
      (handleFileValidation files st).isUploading = st.isUploading) ∧
    ((files.all isPdfType = false ∨ (files.all isPdfType = true ∧ 10 < files.length)) →
      (handleFileValidation files st).resumes = st.resumes ∧
      (handleFileValidation files st).job_description = st.job_description ∧
      (∃ m, (handleFileValidation files st).errors.resumes = some m) ∧
      (handleFileValidation files st).errors.job_description = st.errors.job_description ∧
      (handleFileValidation files st).errors.submit = st.errors.submit ∧
      (handleFileValidation files st).isUploading = st.isUploading) ∧
    handleResumeUpload files st = handleFileValidation files st := by
  refine ⟨?_, ?_, rfl⟩
  · rintro ⟨hall, hle⟩
    have hfil := filter_isPdfType_eq_self files hall
    simp [handleFileValidation, hfil, Nat.not_lt.mpr hle]
  · rintro (hall | ⟨hall, hgt⟩)
    · have hne := filter_isPdfType_length_ne files (by simp [hall])
      simp [handleFileValidation, hne]
    · have hfil := filter_isPdfType_eq_self files hall
      simp [handleFileValidation, hfil, hgt]

/-- Witness for C10: replacing a previously selected PDF with a new
two-PDF batch, and a failing batch leaving the old selection untouched. -/
theorem fileValidation_replace_or_noop_witness :
    ((handleFileValidation [FileObj.mk "b.pdf" "application/pdf", FileObj.mk "c.pdf" "application/pdf"]
        (FormState.mk [FileObj.mk "a.pdf" "application/pdf"] "jd"
          (FormErrors.mk none (some "Job description is required") none) false)).resumes =
      [FileObj.mk "b.pdf" "application/pdf", FileObj.mk "c.pdf" "application/pdf"] ∧
      (handleFileValidation [FileObj.mk "b.pdf" "application/pdf", FileObj.mk "c.pdf" "application/pdf"]
        (FormState.mk [FileObj.mk "a.pdf" "application/pdf"] "jd"
          (FormErrors.mk none (some "Job description is required") none) false)).errors.resumes = none) ∧
    ((handleFileValidation [FileObj.mk "b.txt" "text/plain"]
        (FormState.mk [FileObj.mk "a.pdf" "application/pdf"] "jd"
          (FormErrors.mk none (some "Job description is required") none) false)).resumes =
      [FileObj.mk "a.pdf" "application/pdf"] ∧
      (handleFileValidation [FileObj.mk "b.txt" "text/plain"]
        (FormState.mk [FileObj.mk "a.pdf" "application/pdf"] "jd"
          (FormErrors.mk none (some "Job description is required") none) false)).errors.job_description =
        some "Job description is required") := by
  have h1 := (fileValidation_replace_or_noop
    [FileObj.mk "b.pdf" "application/pdf", FileObj.mk "c.pdf" "application/pdf"]
    (FormState.mk [FileObj.mk "a.pdf" "application/pdf"] "jd"
      (FormErrors.mk none (some "Job description is required") none) false)).1 (by decide)
  have h2 := (fileValidation_replace_or_noop [FileObj.mk "b.txt" "text/plain"]
    (FormState.mk [FileObj.mk "a.pdf" "application/pdf"] "jd"
      (FormErrors.mk none (some "Job description is required") none) false)).2.1 (Or.inl (by decide))
  exact ⟨⟨h1.1, h1.2.1⟩, ⟨h2.1, h2.2.2.2.1⟩⟩

/-- C8: the submit handler's failure paths preserve form state. When
validation fails the callback is never invoked (the payload handed out is
`none`, so no network call is made) and the selected files and
description are unchanged; when the callback's promise rejects, the
selection and description are unchanged so the user can retry, the
payload having carried exactly that selection and description; the
selection and description are cleared only when the callback resolves. -/
theorem handleSubmit_frame (st : FormState) (cb : Bool) :
    ((st.resumes.length = 0 ∨ jsTrim st.job_description = "") →
      (handleSubmit st cb).2 = none ∧
      (handleSubmit st cb).1.resumes = st.resumes ∧
      (handleSubmit st cb).1.job_description = st.job_description) ∧
    ((st.resumes.length ≠ 0 ∧ jsTrim st.job_description ≠ "") → cb = false →
      (handleSubmit st cb).1.resumes = st.resumes ∧
      (handleSubmit st cb).1.job_description = st.job_description ∧
      (handleSubmit st cb).2 = some (st.resumes, st.job_description) ∧
      (handleSubmit st cb).1.errors.submit = some "Failed to upload. Please try again.") ∧
    ((st.resumes.length ≠ 0 ∧ jsTrim st.job_description ≠ "") → cb = true →
      (handleSubmit st cb).1.resumes = [] ∧
      (handleSubmit st cb).1.job_description = "" ∧
      (handleSubmit st cb).2 = some (st.resumes, st.job_description)) := by
  refine ⟨?_, ?_, ?_⟩
  · rintro (h | h) <;> simp [handleSubmit, validateForm, h]
  · rintro ⟨h1, h2⟩ rfl
    simp [handleSubmit, validateForm, h1, h2]
  · rintro ⟨h1, h2⟩ rfl
    simp [handleSubmit, validateForm, h1, h2]

/-- Witness for C8: a state with one selected PDF and a non-blank
description, run through the three paths (a blank-description state for
the validation-failure path, then rejection and resolution of the
callback). -/
theorem handleSubmit_frame_witness :
    ((handleSubmit (FormState.mk [FileObj.mk "a.pdf" "application/pdf"] "   "
          (FormErrors.mk none none none) false) true).2 = none ∧
      (handleSubmit (FormState.mk [FileObj.mk "a.pdf" "application/pdf"] "   "
          (FormErrors.mk none none none) false) true).1.resumes =
        [FileObj.mk "a.pdf" "application/pdf"]) ∧
    ((handleSubmit (FormState.mk [FileObj.mk "a.pdf" "application/pdf"] "Backend engineer"
          (FormErrors.mk none none none) false) false).1.resumes =
        [FileObj.mk "a.pdf" "application/pdf"] ∧
      (handleSubmit (FormState.mk [FileObj.mk "a.pdf" "application/pdf"] "Backend engineer"
          (FormErrors.mk none none none) false) false).1.job_description = "Backend engineer") ∧
    ((handleSubmit (FormState.mk [FileObj.mk "a.pdf" "application/pdf"] "Backend engineer"
          (FormErrors.mk none none none) false) true).1.resumes = [] ∧
      (handleSubmit (FormState.mk [FileObj.mk "a.pdf" "application/pdf"] "Backend engineer"
          (FormErrors.mk none none none) false) true).1.job_description = "") := by
  have h1 := (handleSubmit_frame (FormState.mk [FileObj.mk "a.pdf" "application/pdf"] "   "
    (FormErrors.mk none none none) false) true).1 (Or.inr (by decide))
  have h2 := (handleSubmit_frame (FormState.mk [FileObj.mk "a.pdf" "application/pdf"] "Backend engineer"
    (FormErrors.mk none none none) false) false).2.1 (by decide) rfl
  have h3 := (handleSubmit_frame (FormState.mk [FileObj.mk "a.pdf" "application/pdf"] "Backend engineer"
    (FormErrors.mk none none none) false) true).2.2 (by decide) rfl
  exact ⟨⟨h1.1, h1.2.1⟩, ⟨h2.1, h2.2.1⟩, ⟨h3.1, h3.2.1⟩⟩

end ResumeRanker

namespace ResumeRanker

/-! ### Results page sorting (`sortedCandidates`, ResultsPage.jsx lines 10-38)

The comparator passed to `Array.prototype.sort` returns `1` or `-1` and
never `0`: on a tie both `aValue > bValue` (ascending) and
`aValue < bValue` (descending) are false, so the comparator answers `-1`
for both argument orders. Such a comparator is not a consistent
comparison function, so ECMAScript leaves the resulting order
implementation-defined. The model below follows the binary insertion sort
that V8's `Array.prototype.sort` (TimSort) applies to short arrays; every
concrete input used in the theorems has fewer elements than any engine's
minimum run length, so it is insertion-sorted in every TimSort variant. -/

/-- A ranked candidate as the results page reads it: the fields used by
sorting and the aggregate statistics. -/
structure Candidate where
  id : Nat
  name : String
  email : String
  score : Rat
  experience : Option Rat
  deriving DecidableEq, Repr

/-- The sort keys offered by the page's Sort-by control. -/
inductive SortKey where
  | score
  | name
  | experience
  deriving DecidableEq, Repr

/-- The sort directions offered by the page's Order control. -/
inductive SortOrder where
  | asc
  | desc
  deriving DecidableEq, Repr

/-- A JavaScript value as it appears in `aValue`/`bValue`: a number or a
string, depending on the chosen key. -/
inductive JsVal where
  | num (q : Rat)
  | str (s : String)
  deriving DecidableEq, Repr

/-- Model of `String.prototype.toLowerCase`, character by character. -/
def jsToLower (s : String) : String :=
  String.mk (s.data.map Char.toLower)

/-- Lexicographic comparison of character lists, the order JavaScript's
`<` uses on strings. -/
def charListLt : List Char → List Char → Bool
  | [], [] => false
  | [], _ :: _ => true
  | _ :: _, [] => false
  | a :: as, b :: bs => if a < b then true else if b < a then false else charListLt as bs

/-- JavaScript's `<` on the two value shapes the comparator produces; the
two operands always come from the same key, so they have the same shape. -/
def JsVal.ltb : JsVal → JsVal → Bool
  | JsVal.num a, JsVal.num b => a < b
  | JsVal.str a, JsVal.str b => charListLt a.data b.data
  | _, _ => false

/-- The `aValue`/`bValue` extraction of the comparator (the `switch` of
lines 14-30): the raw score, the lower-cased name, or `experience || 0`. -/
def keyValue : SortKey → Candidate → JsVal
  | SortKey.score, c => JsVal.num c.score
  | SortKey.name, c => JsVal.str (jsToLower c.name)
  | SortKey.experience, c => JsVal.num (match c.experience with | some q => q | none => 0)

/-- The comparator literal of lines 11-37: ascending answers
`aValue > bValue ? 1 : -1`, descending answers `aValue < bValue ? 1 : -1`.
It never returns `0`. -/
def sortComparator (key : SortKey) (ord : SortOrder) (a b : Candidate) : Int :=
  let av := keyValue key a
  let bv := keyValue key b
  match ord with
  | SortOrder.asc => if JsVal.ltb bv av then 1 else -1
  | SortOrder.desc => if JsVal.ltb av bv then 1 else -1

/-- The binary search of V8's `binarySort`: find the slot for `pivot` in
the sorted prefix `arr[left..right)`, halving the window with
`cmp pivot arr[mid] < 0`. The fuel argument (`right - left` at the top
call) makes the recursion structural so that it evaluates by kernel
reduction; each step shrinks the window, so the fuel never runs out. -/
def v8BinarySearchAux (cmp : α → α → Int) (pivot : α) (arr : List α) :
    Nat → Nat → Nat → Nat
  | 0, left, _ => left
  | n + 1, left, right =>
    if left < right then
      let mid := (left + right) / 2
      if cmp pivot (arr.getD mid pivot) < 0 then
        v8BinarySearchAux cmp pivot arr n left mid
      else
        v8BinarySearchAux cmp pivot arr n (mid + 1) right
    else left

/-- Insert one element into the already-processed prefix at the slot the
binary search chose. -/
def v8BinaryInsert (cmp : α → α → Int) (sorted : List α) (x : α) : List α :=
  let pos := v8BinarySearchAux cmp x sorted sorted.length 0 sorted.length
  sorted.take pos ++ x :: sorted.drop pos

/-- The binary insertion sort V8 applies to short arrays: process the
elements left to right, inserting each into the sorted prefix. -/
def v8BinaryInsertionSort (cmp : α → α → Int) (l : List α) : List α :=
  l.foldl (v8BinaryInsert cmp) []

/-- The page's `sortedCandidates` derivation (lines 10-38):
`[...results.candidates].sort(comparator)` under the engine sort model
above. -/
def sortedCandidates (key : SortKey) (ord : SortOrder) (candidates : List Candidate) : List Candidate :=
  v8BinaryInsertionSort (sortComparator key ord) candidates

end ResumeRanker

namespace ResumeRanker

/-- C4 fails on the code: the comparator answers `-1` for a tie in both
argument orders (so it is not a consistent comparison function and the
ECMAScript sort order is implementation-defined), and under the engine
sort model two candidates with equal scores come out in reversed relative
order under the default score/descending sort, not in their original
order. -/
theorem sort_ties_reversed :
    sortComparator SortKey.score SortOrder.desc
        (Candidate.mk 1 "Alice" "alice@example.com" 80 (some 3))
        (Candidate.mk 2 "Bob" "bob@example.com" 80 (some 5)) = -1 ∧
    sortComparator SortKey.score SortOrder.desc
        (Candidate.mk 2 "Bob" "bob@example.com" 80 (some 5))
        (Candidate.mk 1 "Alice" "alice@example.com" 80 (some 3)) = -1 ∧
    sortedCandidates SortKey.score SortOrder.desc
        [Candidate.mk 1 "Alice" "alice@example.com" 80 (some 3),
          Candidate.mk 2 "Bob" "bob@example.com" 80 (some 5)] =
      [Candidate.mk 2 "Bob" "bob@example.com" 80 (some 5),
        Candidate.mk 1 "Alice" "alice@example.com" 80 (some 3)] := by
  decide

/-- C5 fails on the code: sorting a list that is already the output of
the same key and direction does not reproduce it when scores tie — the
tied pair flips on every pass, for the same never-zero-comparator reason
as the stability failure. -/
theorem sort_not_idempotent :
    sortedCandidates SortKey.score SortOrder.desc
        (sortedCandidates SortKey.score SortOrder.desc
          [Candidate.mk 3 "Cara" "cara@example.com" 75 none,
            Candidate.mk 4 "Dan" "dan@example.com" 75 none]) ≠
      sortedCandidates SortKey.score SortOrder.desc
        [Candidate.mk 3 "Cara" "cara@example.com" 75 none,
          Candidate.mk 4 "Dan" "dan@example.com" 75 none] := by
  decide

/-! ### Display order never mutates the service-returned list (C9)

JavaScript's `Array.prototype.sort` sorts in place, so the invariant
rests on the spread `[...results.candidates]` allocating a fresh array.
The model makes the mutation explicit with a store of arrays addressed by
identity. -/

/-- A store of candidate arrays addressed by numeric identity; `size` is
the number of allocated identities. -/
structure ArrayStore where
  size : Nat
  mem : Nat → List Candidate

/-- Allocate a fresh array holding `v`, returning its identity. -/
def ArrayStore.alloc (s : ArrayStore) (v : List Candidate) : ArrayStore × Nat :=
  (ArrayStore.mk (s.size + 1) (fun i => if i = s.size then v else s.mem i), s.size)

/-- Overwrite the array at `id` in place. -/
def ArrayStore.write (s : ArrayStore) (id : Nat) (v : List Candidate) : ArrayStore :=
  ArrayStore.mk s.size (fun i => if i = id then v else s.mem i)

/-- The `sortedCandidates` derivation with the mutation visible:
`[...results.candidates]` reads the elements and allocates a fresh array,
and `.sort(comparator)` mutates that fresh array in place. Returns the
store and the identity of the displayed array. -/
def computeSortedCandidates (s : ArrayStore) (candidatesId : Nat)
    (key : SortKey) (ord : SortOrder) : ArrayStore × Nat :=
  let a := s.alloc (s.mem candidatesId)
  (a.1.write a.2 (sortedCandidates key ord (a.1.mem a.2)), a.2)

/-- C9: re-sorting for display never mutates the service-returned list.
For every store, every allocated candidates array and every key and
direction, the canonical array is unchanged after the display order is
computed; only the freshly allocated copy holds the re-sorted order. -/
theorem sortedCandidates_no_mutation (s : ArrayStore) (candidatesId : Nat)
    (key : SortKey) (ord : SortOrder) (h : candidatesId < s.size) :
    (computeSortedCandidates s candidatesId key ord).1.mem candidatesId = s.mem candidatesId ∧
    (computeSortedCandidates s candidatesId key ord).1.mem
        (computeSortedCandidates s candidatesId key ord).2 =
      sortedCandidates key ord (s.mem candidatesId) := by
  have hne : candidatesId ≠ s.size := Nat.ne_of_lt h
  constructor
  · simp [computeSortedCandidates, ArrayStore.alloc, ArrayStore.write, hne]
  · simp [computeSortedCandidates, ArrayStore.alloc, ArrayStore.write]

/-- Witness for C9: a one-array store holding three candidates in
service order; computing the ascending-by-score display order leaves the
canonical array unchanged. -/
theorem sortedCandidates_no_mutation_witness :
    (computeSortedCandidates
        (ArrayStore.mk 1 (fun _ =>
          [Candidate.mk 1 "Eve" "eve@example.com" 92 none,
            Candidate.mk 2 "Finn" "finn@example.com" 61 none]))
        0 SortKey.score SortOrder.asc).1.mem 0 =
      [Candidate.mk 1 "Eve" "eve@example.com" 92 none,
        Candidate.mk 2 "Finn" "finn@example.com" 61 none] := by
  have h := (sortedCandidates_no_mutation
    (ArrayStore.mk 1 (fun _ =>
      [Candidate.mk 1 "Eve" "eve@example.com" 92 none,
        Candidate.mk 2 "Finn" "finn@example.com" 61 none]))
    0 SortKey.score SortOrder.asc (by decide)).1
  simpa using h

end ResumeRanker

namespace ResumeRanker

/-! ### Aggregate statistics (ResultsPage.jsx lines 249-279)

The Average Score stat is
`Math.round(candidates.reduce((sum, c) => sum + c.score, 0) / candidates.length) || 0`.
Over the empty list the division is `0 / 0 = NaN`, `Math.round(NaN)` is
`NaN`, and `NaN || 0` yields `0`. The `JSNum` type carries the non-finite
values so this path is modelled, not assumed away. -/

/-- A JavaScript number: `NaN`, the infinities, or a finite value
(modelled as a rational; the scores in play are small integers, for which
double arithmetic is exact). -/
inductive JSNum where
  | nan
  | inf
  | negInf
  | val (q : Rat)
  deriving DecidableEq, Repr

/-- JavaScript division of finite numbers: division by zero gives `NaN`
for a zero numerator and a signed infinity otherwise. -/
def jsDiv (a b : Rat) : JSNum :=
  if b = 0 then
    if a = 0 then JSNum.nan else if 0 < a then JSNum.inf else JSNum.negInf
  else JSNum.val (a / b)

/-- JavaScript's `Math.round`: floor of `x + 1/2` on finite values,
identity on `NaN` and the infinities. -/
def jsRound : JSNum → JSNum
  | JSNum.nan => JSNum.nan
  | JSNum.inf => JSNum.inf
  | JSNum.negInf => JSNum.negInf
  | JSNum.val q => JSNum.val ((Rat.floor (q + 1/2) : Int) : Rat)

/-- The numeric `x || 0` idiom: the falsy numbers `NaN` and `0` give the
right operand `0`; every other number passes through. -/
def jsOrZero : JSNum → JSNum
  | JSNum.nan => JSNum.val 0
  | JSNum.inf => JSNum.inf
  | JSNum.negInf => JSNum.negInf
  | JSNum.val q => if q = 0 then JSNum.val 0 else JSNum.val q

/-- The `reduce((sum, c) => sum + c.score, 0)` accumulation. -/
def sumScores (cs : List Candidate) : Rat :=
  cs.foldl (fun s c => s + c.score) 0

/-- The Average Score stat of lines 269-278. -/
def averageScoreStat (cs : List Candidate) : JSNum :=
  jsOrZero (jsRound (jsDiv (sumScores cs) ((cs.length : Nat) : Rat)))

/-- The spec's words for the same stat, as a plain integer: the
arithmetic mean of the scores rounded to the nearest integer (half
rounding up, as `Math.round` does), and zero for the empty set. -/
def specAverageScore (cs : List Candidate) : Int :=
  if cs.length = 0 then 0
  else Rat.floor ((cs.map Candidate.score).sum / ((cs.length : Nat) : Rat) + 1/2)

lemma sumScores_eq_sum_map (cs : List Candidate) :
    sumScores cs = (cs.map Candidate.score).sum := by
  suffices h : ∀ a : Rat, cs.foldl (fun s c => s + c.score) a = a + (cs.map Candidate.score).sum by
    simpa [sumScores] using h 0
  induction cs with
  | nil => intro a; simp
  | cons c tl ih =>
    intro a
    simp [List.foldl_cons, ih, add_assoc]

lemma jsOrZero_val (x : Rat) : jsOrZero (JSNum.val x) = JSNum.val x := by
  simp only [jsOrZero]
  split_ifs with h
  · rw [h]
  · rfl

/-- C6: the Average Score statistic is always the finite number given by
the spec-side definition — the rounded arithmetic mean for a non-empty
candidate list — and over the empty list it is exactly `0`: the
`NaN` produced by `0 / 0` is absorbed by `|| 0`, so the displayed value
is never `NaN` and the computation never fails. -/
theorem averageScore_refines_spec (cs : List Candidate) :
    averageScoreStat cs = JSNum.val ((specAverageScore cs : Int) : Rat) ∧
    averageScoreStat [] = JSNum.val 0 := by
  constructor
  · cases cs with
    | nil => simp [averageScoreStat, specAverageScore, sumScores, jsDiv, jsRound, jsOrZero]
    | cons c tl =>
      have hlen : ((tl.length : Nat) : Rat) + 1 ≠ 0 := by
        positivity
      simp [averageScoreStat, jsDiv, hlen, jsRound, jsOrZero_val, specAverageScore,
        sumScores_eq_sum_map]
  · simp [averageScoreStat, sumScores, jsDiv, jsRound, jsOrZero]

end ResumeRanker
